import Mathlib

/-!
# Verification of the sanity-loader caching core

Shallow embedding of the caching / staleness / loader logic of
`@ulu/sanity-loader` (lib/defaults.js and lib/index.js), together with
proofs of the spec's claims about it.

JavaScript values that flow through the code are modelled as follows:
JSON results are an inductive `Json` type; nullable strings are
`Option String` (`none` = JS `null`/`undefined`); JS truthiness is made
explicit (`Json.truthy`, `strTruthy`); thrown errors are `JsError`
values carried in `Except`.  The filesystem cache is a map from query
name to file content, where a file either parses to a cache entry or is
corrupt (`JSON.parse` throws).
-/

/-- A JSON value, as produced by `client.fetch` and stored in cache files. -/
inductive Json where
  | null : Json
  | bool (b : Bool) : Json
  | num (n : Int) : Json
  | str (s : String) : Json
  | arr (elems : List Json) : Json
  | obj (fields : List (String × Json)) : Json

/-- JS truthiness of a JSON value: `null`, `false`, `0` and `""` are falsy;
every array and object (including empty ones) is truthy. -/
def Json.truthy : Json → Bool
  | .null => false
  | .bool b => b
  | .num n => n != 0
  | .str s => s != ""
  | .arr _ => true
  | .obj _ => true

/-- JS truthiness of a nullable string: `null`/`undefined` and `""` are falsy. -/
def strTruthy : Option String → Bool
  | none => false
  | some s => s != ""

/-- A thrown JS `Error`, identified by its message. -/
structure JsError where
  message : String
deriving DecidableEq, Repr

/-- `Error.prototype.toString`: `"Error: " ++ message`. -/
def JsError.toString (e : JsError) : String := "Error: " ++ e.message

/-- `path.join` of a directory and a file name (the only use the loader makes
of it). -/
def pathJoin (dir file : String) : String := dir ++ "/" ++ file

/-! ## Cache store (`cacheResult` / `loadFromCache`) -/

/-- The parsed content of a cache file `<cacheDir>/<queryName>.json`:
`{ result, version, query }` as written by `cacheResult`. -/
structure CacheEntry where
  result : Json
  version : Option String
  query : String

/-- What a cache file on disk holds: either content that `JSON.parse`
accepts as an entry, or corrupt bytes (`JSON.parse` throws, the loader
logs and treats it as a miss). -/
inductive CacheFileContent where
  | valid (e : CacheEntry) : CacheFileContent
  | corrupt : CacheFileContent

/-- The cache directory: one optional file per query name. -/
def CacheStore := String → Option CacheFileContent

/-- `cacheResult(result, queryName, expectedVersion, query)`: writes
`{ result, version: expectedVersion, query }` to `<queryName>.json`,
overwriting unconditionally. -/
def cacheResult (store : CacheStore) (result : Json) (queryName : String)
    (expectedVersion : Option String) (query : String) : CacheStore :=
  fun n => if n = queryName then some (.valid ⟨result, expectedVersion, query⟩) else store n

/-- `loadFromCache(queryName, expectedVersion, isStale, currentQuery)`,
translated branch for branch from the source:

* missing file → `null`;
* `isStale` → `null` without reading the file;
* parse failure → logged, falls through to `null`;
* stored `query !== currentQuery` → `null`;
* truthy `expectedVersion` → result iff `version === expectedVersion`;
* otherwise → stored result. -/
def loadFromCache (store : CacheStore) (queryName : String)
    (expectedVersion : Option String) (isStale : Bool) (currentQuery : String) :
    Option Json :=
  match store queryName with
  | none => none
  | some content =>
    if isStale then none
    else
      match content with
      | .corrupt => none
      | .valid e =>
        if currentQuery ≠ e.query then none
        else if strTruthy expectedVersion then
          if e.version = expectedVersion then some e.result else none
        else some e.result

/-! ## Default staleness oracle (`isCacheStale`, lib/defaults.js) -/

/-- Default `isCacheStale`: `cachedTimestamp` is the marker file content
(`none` if the file is missing), `liveTimestamp` is what the probe query
returned (`none` for `null`/`undefined`).  Returns the staleness verdict
together with the marker written back (`none` if no write happens):
`isStale = !liveTimestamp || liveTimestamp !== cachedTimestamp`, and the
marker is overwritten with `liveTimestamp` iff `isStale && liveTimestamp`. -/
def isCacheStale (cachedTimestamp liveTimestamp : Option String) :
    Bool × Option String :=
  let isStale := !strTruthy liveTimestamp || liveTimestamp != cachedTimestamp
  (isStale, if isStale && strTruthy liveTimestamp then liveTimestamp else none)

/-! ## Factory configuration check (`createSanityLoader`) -/

/-- One field of the host-supplied config object: absent key, key present
with JS `undefined`, or key present with a JSON-like value. -/
inductive ConfigField where
  | absent : ConfigField
  | present (v : Option Json) : ConfigField

/-- The merged value of a field after `{ ...defaults, ...config }`: an
absent key falls back to the default, a present key (even one holding
`undefined`) overrides it. -/
def mergedField (f : ConfigField) (dflt : Json) : Option Json :=
  match f with
  | .absent => some dflt
  | .present v => v

/-- Truthiness of a merged JS value (`none` = `undefined`). -/
def mergedTruthy : Option Json → Bool
  | none => false
  | some j => j.truthy

/-- The fields of the host config that the constructor's validation reads.
Defaults (from `defaultSanityLoaderOptions`): `client: null`,
`clientConfig: null`, `paths: {}`. -/
structure SanityLoaderConfig where
  client : ConfigField
  clientConfig : ConfigField
  paths : ConfigField

/-- The validation performed by `createSanityLoader`:
`if ((!clientInstance && !clientConfig) || !pathConfig) throw ...`
after merging the defaults. -/
def createSanityLoader (config : SanityLoaderConfig) : Except JsError Unit :=
  let clientInstance := mergedField config.client Json.null
  let clientConfig := mergedField config.clientConfig Json.null
  let pathConfig := mergedField config.paths (Json.obj [])
  if (!mergedTruthy clientInstance && !mergedTruthy clientConfig)
      || !mergedTruthy pathConfig then
    .error ⟨"Configuration requires `paths` and either a `client` instance or a `clientConfig` object."⟩
  else
    .ok ()

/-! ## Staleness coordinator (`getStaleState`)

The factory closes over two mutable variables,
`onStartStaleState : null | boolean` and `onStartCheckPromise : null | Promise`.
`getStaleState` itself runs atomically on the JS event loop (its body has no
`await` before the state updates), and the `.then` continuation that records
the verdict runs as a separate atomic step when the oracle's promise settles.
We model this as a state machine over three events: a `getVerdict` call, the
oracle promise fulfilling, and the oracle promise rejecting (in which case the
`.then`-derived promise rejects too and no continuation runs). -/

/-- The outcome of an oracle promise once it settles. -/
inductive PromiseOutcome where
  | ok (b : Bool) : PromiseOutcome
  | rejected : PromiseOutcome
deriving DecidableEq, Repr

/-- Coordinator state closed over by one factory.  `settled` records the
outcome of each oracle promise once it settles; `oracleCalls` counts
`isCacheStale` invocations; `nextId` allocates promise identities. -/
structure CoordState where
  onStartStaleState : Option Bool
  onStartCheckPromise : Option Nat
  oracleCalls : Nat
  nextId : Nat
  settled : List (Nat × PromiseOutcome)
deriving DecidableEq, Repr

/-- Coordinator state at factory construction: both variables `null`. -/
def initCoordState : CoordState := ⟨none, none, 0, 0, []⟩

/-- What a `getStaleState()` call hands back to its caller: an already
recorded verdict, or a reference to a pending promise. -/
inductive CallResult where
  | value (b : Bool) : CallResult
  | promiseRef (id : Nat) : CallResult
deriving DecidableEq, Repr

/-- One `getStaleState()` call, translated from the source:
per-call mode re-invokes the oracle unconditionally; otherwise a recorded
verdict is returned first, then an in-flight promise, and only failing both
is the oracle invoked and its promise stored in `onStartCheckPromise`. -/
def getStaleState (invalidateCachePerCall : Bool) (s : CoordState) :
    CoordState × CallResult :=
  if invalidateCachePerCall then
    ({ s with oracleCalls := s.oracleCalls + 1, nextId := s.nextId + 1 },
     .promiseRef s.nextId)
  else
    match s.onStartStaleState with
    | some b => (s, .value b)
    | none =>
      match s.onStartCheckPromise with
      | some p => (s, .promiseRef p)
      | none =>
        ({ s with
            oracleCalls := s.oracleCalls + 1,
            onStartCheckPromise := some s.nextId,
            nextId := s.nextId + 1 },
         .promiseRef s.nextId)

/-- The `.then` continuation: when the in-flight oracle promise fulfils with
`b`, record `onStartStaleState := b` and clear `onStartCheckPromise`.
A promise settles at most once, hence the `settled` guard. -/
def fulfillCheck (s : CoordState) (b : Bool) : CoordState :=
  match s.onStartCheckPromise with
  | some p =>
    if (s.settled.lookup p).isSome then s
    else { s with
            onStartStaleState := some b,
            onStartCheckPromise := none,
            settled := (p, .ok b) :: s.settled }
  | none => s

/-- The in-flight oracle promise rejects: the `.then` continuation never
runs, so neither `onStartStaleState` nor `onStartCheckPromise` changes;
the promise is merely now settled (rejected). -/
def rejectCheck (s : CoordState) : CoordState :=
  match s.onStartCheckPromise with
  | some p =>
    if (s.settled.lookup p).isSome then s
    else { s with settled := (p, .rejected) :: s.settled }
  | none => s

/-- An atomic event interleaved on the JS event loop. -/
inductive CoordEvent where
  | getVerdict : CoordEvent
  | fulfill (b : Bool) : CoordEvent
  | reject : CoordEvent
deriving DecidableEq, Repr

/-- Effect of one event on the coordinator state. -/
def coordStep (invalidateCachePerCall : Bool) (s : CoordState) :
    CoordEvent → CoordState
  | .getVerdict => (getStaleState invalidateCachePerCall s).1
  | .fulfill b => fulfillCheck s b
  | .reject => rejectCheck s

/-- Run a sequence of events from the initial state. -/
def coordExec (invalidateCachePerCall : Bool) (tr : List CoordEvent) :
    CoordState :=
  tr.foldl (coordStep invalidateCachePerCall) initCoordState

/-! ## Loader unit (`defineLoader` / `run`) -/

/-- Per-loader options after `{ ...loaderDefaults, ...options }`
(transforms are modelled as partial JS functions that may throw). -/
structure LoaderConfig where
  queryName : Option String
  query : Option String
  transform : Option (Json → Except JsError Json)
  cacheEnabled : Bool
  expectedVersion : Option String

/-- `loaderDefaults` from lib/defaults.js. -/
def loaderDefaults : LoaderConfig :=
  { queryName := none, query := none, transform := none,
    cacheEnabled := true, expectedVersion := none }

/-- The environment one `run()` executes against: the outcome of the
coordinator's staleness promise, the content of the loader's
`<queries>/<queryName>.groq` file (`none` = missing), the cache
directory, and what `client.fetch(queryString)` would produce. -/
structure RunEnv where
  queriesDir : String
  staleResult : Except JsError Bool
  queryFile : Option String
  cacheStore : CacheStore
  fetchResult : Except JsError Json

/-- `getQuery(queryName)`: throws without a truthy name, returns the file's
content when it exists, and throws naming the file and path otherwise. -/
def getQuery (queriesDir : String) (queryFile : Option String)
    (queryName : Option String) : Except JsError String :=
  if !strTruthy queryName then
    .error ⟨"API: getQuery requires a queryName"⟩
  else
    match queryFile with
    | some content => .ok content
    | none =>
      .error ⟨"API: Unable to get query file " ++ queryName.getD "" ++ " at "
        ++ pathJoin queriesDir (queryName.getD "" ++ ".groq")⟩

/-- `const queryString = query || (queryName ? getQuery(queryName) : null)`.
Returns the resolved nullable string, or the error `getQuery` throws. -/
def resolveQueryString (cfg : LoaderConfig) (env : RunEnv) :
    Except JsError (Option String) :=
  if strTruthy cfg.query then .ok cfg.query
  else if strTruthy cfg.queryName then
    match getQuery env.queriesDir env.queryFile cfg.queryName with
    | .ok content => .ok (some content)
    | .error e => .error e
  else .ok none

/-- The inner `fetch(query)` helper: throws on a falsy query, otherwise
defers to `client.fetch`. -/
def fetch (query : String) (clientFetch : Except JsError Json) :
    Except JsError Json :=
  if query = "" then .error ⟨"API: Incorrect query passed to fetch"⟩
  else clientFetch

/-- Truthiness of the `cache` variable in `run()` (`loadFromCache` result
or `null`): `if (cache) { ... }`. -/
def cacheTruthy : Option Json → Bool
  | none => false
  | some j => j.truthy

/-- `transform ? await transform(result) : result`. -/
def applyTransform (t : Option (Json → Except JsError Json)) (r : Json) :
    Except JsError Json :=
  match t with
  | none => .ok r
  | some f => f r

/-- The body of `run()` inside the `try`: the returned (or thrown) value
together with the cache write performed, as the `(name, entry)` passed
to `cacheResult` (`none` when no write happens). -/
def runBody (cfg : LoaderConfig) (env : RunEnv) :
    Except JsError Json × Option (String × CacheEntry) :=
  if cfg.cacheEnabled && !strTruthy cfg.queryName then
    (.error ⟨"defineLoader: `queryName` is required for caching."⟩, none)
  else
    match (if cfg.cacheEnabled then env.staleResult else .ok true) with
    | .error e => (.error e, none)
    | .ok isStale =>
      match resolveQueryString cfg env with
      | .error e => (.error e, none)
      | .ok queryStringOpt =>
        if !strTruthy queryStringOpt then
          (.error ⟨"defineLoader: `query` or `queryName` must be provided."⟩, none)
        else
          let queryString := queryStringOpt.getD ""
          let cache :=
            if cfg.cacheEnabled then
              loadFromCache env.cacheStore (cfg.queryName.getD "")
                cfg.expectedVersion isStale queryString
            else none
          if cacheTruthy cache then
            (applyTransform cfg.transform (cache.getD Json.null), none)
          else
            match fetch queryString env.fetchResult with
            | .error e => (.error e, none)
            | .ok result =>
              let write :=
                if cfg.cacheEnabled then
                  some (cfg.queryName.getD "",
                        (⟨result, cfg.expectedVersion, queryString⟩ : CacheEntry))
                else none
              (applyTransform cfg.transform result, write)

/-- The observable outcome of one `run()` invocation. -/
structure RunOut where
  result : Except JsError Json
  cacheWrite : Option (String × CacheEntry)
  logged : List (Option String × String)

/-- `run()` with its `catch` block: on any thrown error,
`log.error(queryName, error.toString())` fires and the same error is
rethrown. -/
def run (cfg : LoaderConfig) (env : RunEnv) : RunOut :=
  { result := (runBody cfg env).1
    cacheWrite := (runBody cfg env).2
    logged :=
      match (runBody cfg env).1 with
      | .ok _ => []
      | .error e => [(cfg.queryName, e.toString)] }

/-! ## Asset mirror (`saveAsset`) -/

/-- The two asset paths read from `pathConfig`. -/
structure AssetPaths where
  assets : String
  assetsPublic : String

/-- `path.basename`: strip trailing slashes, then keep what follows the
last remaining slash. -/
def basename (p : String) : String :=
  String.mk ((p.toList.reverse.dropWhile (· = '/')).takeWhile (· ≠ '/')).reverse

/-- A parsed `new URL(url)`: only its `pathname` is consumed. -/
structure Url where
  href : String
  pathname : String

/-- `saveAsset(url)`: `null` in, `null` out; otherwise compute the local
destination `<assets>/<basename(pathname)>` and public path
`<assetsPublic>/<basename(pathname)>`; if the destination exists, return
the public path with no network access; otherwise perform one `https.get`
transfer, creating the file on success and (after unlinking the partial
file) rethrowing the transport error on failure.

State threaded through: `files` is the set of paths existing under the
assets directory; the returned `Nat` counts network transfers started. -/
def saveAsset (paths : AssetPaths) (files : List String)
    (downloadOk : Bool) (url : Option Url) :
    Except JsError (Option String) × List String × Nat :=
  match url with
  | none => (.ok none, files, 0)
  | some u =>
    let imageName := basename u.pathname
    let localPath := pathJoin paths.assets imageName
    let publicPath := paths.assetsPublic ++ "/" ++ imageName
    if files.contains localPath then
      (.ok (some publicPath), files, 0)
    else if downloadOk then
      (.ok (some publicPath), localPath :: files, 1)
    else
      (.error ⟨"AssetTransportError"⟩, files, 1)

/-! ## Coordinator invariant -/

/-- Invariant of the coordinator in check-once mode: the oracle has run
iff a verdict is recorded or a check is in flight, never both at once,
and in either case it has run exactly once. -/
def CoordInv (s : CoordState) : Prop :=
  (s.onStartStaleState = none → s.onStartCheckPromise = none → s.oracleCalls = 0)
  ∧ (∀ p, s.onStartCheckPromise = some p →
      s.onStartStaleState = none ∧ s.oracleCalls = 1)
  ∧ (∀ b, s.onStartStaleState = some b →
      s.onStartCheckPromise = none ∧ s.oracleCalls = 1)

/-! ## Claims -/

/-- C1 (counterexample): a cache entry whose stored query and stored
version both match is nevertheless NOT returned when `isStale = true` is
passed to the read: the staleness short-circuit precedes the version
check, so the read yields `none`, not the stored result. -/
theorem loadFromCache_stale_blocks_version_match :
    loadFromCache (fun _ => some (.valid ⟨.str "data", some "v1", "Q"⟩))
      "posts" (some "v1") true "Q" = none := rfl

/-- C1 (amended): with matching query and matching non-empty
`expectedVersion`, the read returns the stored result when the staleness
flag is `false`; when the flag is `true` it returns `none` before the
version check is ever reached. -/
theorem loadFromCache_version_match (store : CacheStore) (queryName : String)
    (r : Json) (v Q : String)
    (hstore : store queryName = some (.valid ⟨r, some v, Q⟩))
    (hv : v ≠ "") :
    loadFromCache store queryName (some v) false Q = some r
    ∧ loadFromCache store queryName (some v) true Q = none := by
  constructor
  · simp [loadFromCache, hstore, strTruthy, hv]
  · simp [loadFromCache, hstore]

/-- C1 (witness). -/
theorem loadFromCache_version_match_witness :
    loadFromCache (fun _ => some (.valid ⟨.str "w", some "v1", "Q"⟩))
      "posts" (some "v1") false "Q" = some (.str "w")
    ∧ loadFromCache (fun _ => some (.valid ⟨.str "w", some "v1", "Q"⟩))
      "posts" (some "v1") true "Q" = none :=
  loadFromCache_version_match _ "posts" (.str "w") "v1" "Q" rfl (by decide)

/-- C3: after `cacheResult` writes `(result, version, query)` into the
slot for `queryName`, a read of the same name under `isStale = false`,
the same `currentQuery`, and the same (or absent) `expectedVersion`
returns exactly the written result. -/
theorem cacheResult_roundtrip (store : CacheStore) (queryName : String)
    (result : Json) (version : Option String) (query : String)
    (ev : Option String) (hev : ev = version ∨ ev = none) :
    loadFromCache (cacheResult store result queryName version query)
      queryName ev false query = some result := by
  have hread : cacheResult store result queryName version query queryName
      = some (.valid ⟨result, version, query⟩) := by simp [cacheResult]
  rcases hev with h | h <;> subst h <;>
    simp [loadFromCache, hread, strTruthy]

/-- C3 (witness): round trip of a nested JSON structure. -/
theorem cacheResult_roundtrip_witness :
    loadFromCache
      (cacheResult (fun _ => none)
        (.obj [("a", .arr [.num 1, .obj [("b", .null)]])]) "posts" (some "v") "Q")
      "posts" (some "v") false "Q"
      = some (.obj [("a", .arr [.num 1, .obj [("b", .null)]])]) :=
  cacheResult_roundtrip (fun _ => none)
    "posts" (.obj [("a", .arr [.num 1, .obj [("b", .null)]])]) (some "v") "Q"
    (some "v") (Or.inl rfl)

/-- C4: an entry written with query `q1` is never returned when read with
a different `currentQuery q2`, for both staleness flags and any version
tag on either side. -/
theorem cacheResult_query_change_invalidates (store : CacheStore)
    (queryName : String) (result : Json) (version : Option String)
    (q1 q2 : String) (ev : Option String) (isStale : Bool)
    (hne : q2 ≠ q1) :
    loadFromCache (cacheResult store result queryName version q1)
      queryName ev isStale q2 = none := by
  have hread : cacheResult store result queryName version q1 queryName
      = some (.valid ⟨result, version, q1⟩) := by simp [cacheResult]
  cases isStale
  · simp [loadFromCache, hread, hne]
  · simp [loadFromCache, hread]

/-- C4 (witness). -/
theorem cacheResult_query_change_invalidates_witness :
    loadFromCache (cacheResult (fun _ => none) (.str "w") "posts" (some "v") "Q1")
      "posts" (some "v") false "Q2" = none :=
  cacheResult_query_change_invalidates (fun _ => none) "posts" (.str "w")
    (some "v") "Q1" "Q2" (some "v") false (by decide)

/-- C5: the default oracle reports stale exactly when the probe yielded
no live timestamp (absent or empty, both JS-falsy) or yielded one that
differs from the stored marker; an empty or absent response is thus
never reported fresh. -/
theorem isCacheStale_verdict (cached live : Option String) :
    (isCacheStale cached live).1 = true ↔
      (strTruthy live = false ∨ (strTruthy live = true ∧ live ≠ cached)) := by
  cases h : strTruthy live <;>
    simp [isCacheStale, h, bne_iff_ne]

/-- C7: evaluating the constructor's validation.  First conjunct: a config
that omits `paths` entirely (but has a truthy `client`) is accepted — the
default `paths: {}` is truthy, so the documented "Configuration requires
`paths`..." error is unreachable for an omitted key.  Second conjunct:
supplying neither `client` nor `clientConfig` does throw.  Third: only an
explicitly nullish `paths` value triggers the throw. -/
theorem createSanityLoader_checks :
    createSanityLoader ⟨.present (some (Json.obj [])), .absent, .absent⟩ = .ok ()
    ∧ createSanityLoader ⟨.absent, .absent, .present (some (Json.obj []))⟩ =
        .error ⟨"Configuration requires `paths` and either a `client` instance or a `clientConfig` object."⟩
    ∧ createSanityLoader ⟨.present (some (Json.obj [])), .absent, .present none⟩ =
        .error ⟨"Configuration requires `paths` and either a `client` instance or a `clientConfig` object."⟩ :=
  ⟨rfl, rfl, rfl⟩

/-- C6 (counterexample): a cache-enabled run whose remote fetch throws
`Error("boom")` propagates exactly that error object unchanged — its
message is `"boom"`, which does not contain the query name `"posts"` —
so the propagated error does not carry the triggering `queryName`. -/
theorem run_rethrows_error_unchanged :
    (run ⟨some "posts", some "Q", none, true, none⟩
        ⟨"queries", .ok false, none, (fun _ => none), .error ⟨"boom"⟩⟩).result
      = .error ⟨"boom"⟩
    ∧ ¬ List.IsInfix "posts".toList "boom".toList :=
  ⟨rfl, by decide⟩

/-- C6 (amended): every failing `run()` logs the triggering `queryName`
together with the original error's string form before propagating, and
the propagated error itself is the thrown error unchanged. -/
theorem run_logs_queryName_on_error (cfg : LoaderConfig) (env : RunEnv)
    (e : JsError) (h : (run cfg env).result = .error e) :
    (run cfg env).logged = [(cfg.queryName, "Error: " ++ e.message)] := by
  have hres : (runBody cfg env).1 = .error e := h
  simp [run, hres, JsError.toString]

/-- C6 (witness). -/
theorem run_logs_queryName_on_error_witness :
    (run ⟨some "posts", some "Q", none, true, none⟩
        ⟨"queries", .ok false, none, (fun _ => none), .error ⟨"kaput"⟩⟩).logged
      = [(some "posts", "Error: kaput")] :=
  run_logs_queryName_on_error _ _ ⟨"kaput"⟩ rfl

/-- C8: a cache-enabled run whose persisted entry passes every read rule
but stores a falsy JSON result treats the read as a miss: it fetches the
fresh value from the client, writes it through to the cache slot, and
returns (the transform of) the fetched value, not the cached one. -/
theorem run_falsy_cache_value_refetches (cfg : LoaderConfig) (env : RunEnv)
    (qn Q : String) (r v : Json)
    (hc : cfg.cacheEnabled = true)
    (hqn : cfg.queryName = some qn) (hqn2 : qn ≠ "")
    (hq : cfg.query = some Q) (hQ : Q ≠ "")
    (hstale : env.staleResult = .ok false)
    (hcache : loadFromCache env.cacheStore qn cfg.expectedVersion false Q = some r)
    (hfalsy : r.truthy = false)
    (hfetch : env.fetchResult = .ok v) :
    (run cfg env).cacheWrite = some (qn, ⟨v, cfg.expectedVersion, Q⟩)
    ∧ (run cfg env).result = applyTransform cfg.transform v := by
  have hbody : runBody cfg env
      = (applyTransform cfg.transform v,
         some (qn, ⟨v, cfg.expectedVersion, Q⟩)) := by
    simp [runBody, hc, hqn, hq, hstale, resolveQueryString, strTruthy,
      hqn2, hQ, hcache, cacheTruthy, hfalsy, fetch, hfetch]
  constructor
  · simp [run, hbody]
  · simp [run, hbody]

/-- C8 (witness): a valid entry storing `null` is skipped, `"fresh"` is
fetched, written back and returned. -/
theorem run_falsy_cache_value_refetches_witness :
    (run ⟨some "posts", some "Q", none, true, none⟩
        ⟨"queries", .ok false, none,
         (fun n => if n = "posts" then some (.valid ⟨.null, none, "Q"⟩) else none),
         .ok (.str "fresh")⟩).cacheWrite
      = some ("posts", ⟨.str "fresh", none, "Q"⟩)
    ∧ (run ⟨some "posts", some "Q", none, true, none⟩
        ⟨"queries", .ok false, none,
         (fun n => if n = "posts" then some (.valid ⟨.null, none, "Q"⟩) else none),
         .ok (.str "fresh")⟩).result
      = .ok (.str "fresh") :=
  run_falsy_cache_value_refetches _ _ "posts" "Q" .null (.str "fresh")
    rfl rfl (by decide) rfl (by decide) rfl rfl rfl rfl

/-- C10: if the destination file for a URL already exists the mirrored
public path is returned with no network transfer; consequently, starting
from a state without the file, two successive successful `saveAsset`
calls on the same URL perform exactly one transfer between them and
return the identical public path; and a null URL yields null. -/
theorem saveAsset_idempotent (paths : AssetPaths) (files : List String)
    (dl : Bool) (u : Url)
    (hnew : pathJoin paths.assets (basename u.pathname) ∉ files) :
    (∀ files2 dl2, pathJoin paths.assets (basename u.pathname) ∈ files2 →
       saveAsset paths files2 dl2 (some u)
         = (.ok (some (paths.assetsPublic ++ "/" ++ basename u.pathname)), files2, 0))
    ∧ saveAsset paths files true (some u)
        = (.ok (some (paths.assetsPublic ++ "/" ++ basename u.pathname)),
           pathJoin paths.assets (basename u.pathname) :: files, 1)
    ∧ saveAsset paths (pathJoin paths.assets (basename u.pathname) :: files) true (some u)
        = (.ok (some (paths.assetsPublic ++ "/" ++ basename u.pathname)),
           pathJoin paths.assets (basename u.pathname) :: files, 0)
    ∧ saveAsset paths files dl none = (.ok none, files, 0) := by
  refine ⟨?_, ?_, ?_, rfl⟩
  · intro files2 dl2 hmem
    simp [saveAsset, List.elem_iff, hmem]
  · simp [saveAsset, List.elem_iff, hnew]
  · simp [saveAsset, List.elem_iff]

/-- C10 (witness). -/
theorem saveAsset_idempotent_witness :
    saveAsset ⟨"assets", "/public"⟩ [] true (some ⟨"https://x/img/a.png", "/img/a.png"⟩)
      = (.ok (some "/public/a.png"), ["assets/a.png"], 1)
    ∧ saveAsset ⟨"assets", "/public"⟩ ["assets/a.png"] true
        (some ⟨"https://x/img/a.png", "/img/a.png"⟩)
      = (.ok (some "/public/a.png"), ["assets/a.png"], 0)
    ∧ saveAsset ⟨"assets", "/public"⟩ [] true none = (.ok none, [], 0) := by
  have h := saveAsset_idempotent ⟨"assets", "/public"⟩ [] true
    ⟨"https://x/img/a.png", "/img/a.png"⟩ (by simp)
  exact ⟨h.2.1, h.2.2.1, h.2.2.2⟩

/-- The invariant holds at factory construction. -/
theorem coordInv_init : CoordInv initCoordState := by
  refine ⟨fun _ _ => rfl, ?_, ?_⟩ <;> intro x h <;> simp [initCoordState] at h

/-- Every event of the check-once coordinator preserves the invariant. -/
theorem coordInv_step (s : CoordState) (e : CoordEvent) (h : CoordInv s) :
    CoordInv (coordStep false s e) := by
  obtain ⟨v, p, c, n, st⟩ := s
  obtain ⟨h0, h1, h2⟩ := h
  cases e with
  | getVerdict =>
    cases v with
    | some b => simpa [coordStep, getStaleState] using ⟨h0, h1, h2⟩
    | none =>
      cases p with
      | some q => simpa [coordStep, getStaleState] using ⟨h0, h1, h2⟩
      | none =>
        have hc : c = 0 := h0 rfl rfl
        subst hc
        simp [coordStep, getStaleState, CoordInv]
  | fulfill b =>
    cases p with
    | none => simpa [coordStep, fulfillCheck] using ⟨h0, h1, h2⟩
    | some q =>
      have hv : v = none := (h1 q rfl).1
      have hc : c = 1 := (h1 q rfl).2
      subst hv
      subst hc
      by_cases hs : (st.lookup q).isSome
      · simpa [coordStep, fulfillCheck, hs] using ⟨h0, h1, h2⟩
      · simp [coordStep, fulfillCheck, hs, CoordInv]
  | reject =>
    cases p with
    | none => simpa [coordStep, rejectCheck] using ⟨h0, h1, h2⟩
    | some q =>
      have hv : v = none := (h1 q rfl).1
      have hc : c = 1 := (h1 q rfl).2
      subst hv
      subst hc
      by_cases hs : (st.lookup q).isSome
      · simpa [coordStep, rejectCheck, hs] using ⟨h0, h1, h2⟩
      · simp [coordStep, rejectCheck, hs, CoordInv]

/-- The invariant holds after any event sequence. -/
theorem coordInv_exec (tr : List CoordEvent) : CoordInv (coordExec false tr) := by
  have haux : ∀ (l : List CoordEvent) (s : CoordState), CoordInv s →
      CoordInv (l.foldl (coordStep false) s) := by
    intro l
    induction l with
    | nil => exact fun s h => h
    | cons e tl ih => exact fun s h => ih _ (coordInv_step s e h)
  exact haux tr initCoordState coordInv_init

/-- C2: in check-once mode, over every event sequence, the oracle runs at
most once; while a check is in flight every further call returns the same
pending promise without touching the state (so no second oracle call);
once a verdict is recorded every further call returns it unchanged; and
when the in-flight promise fulfils, the value handed to its awaiters is
exactly the verdict that gets recorded. -/
theorem getStaleState_check_once (tr : List CoordEvent) :
    (coordExec false tr).oracleCalls ≤ 1
    ∧ (∀ p, (coordExec false tr).onStartCheckPromise = some p →
        getStaleState false (coordExec false tr)
          = (coordExec false tr, .promiseRef p))
    ∧ (∀ b, (coordExec false tr).onStartStaleState = some b →
        getStaleState false (coordExec false tr)
          = (coordExec false tr, .value b))
    ∧ (∀ p b, (coordExec false tr).onStartCheckPromise = some p →
        (coordExec false tr).settled.lookup p = none →
        (fulfillCheck (coordExec false tr) b).onStartStaleState = some b
        ∧ (fulfillCheck (coordExec false tr) b).settled.lookup p = some (.ok b)
        ∧ (fulfillCheck (coordExec false tr) b).oracleCalls
            = (coordExec false tr).oracleCalls) := by
  obtain ⟨h0, h1, h2⟩ := coordInv_exec tr
  refine ⟨?_, ?_, ?_, ?_⟩
  · cases hv : (coordExec false tr).onStartStaleState with
    | some b => exact le_of_eq (h2 b hv).2
    | none =>
      cases hp : (coordExec false tr).onStartCheckPromise with
      | some p => exact le_of_eq (h1 p hp).2
      | none => simp [h0 hv hp]
  · intro p hp
    simp [getStaleState, (h1 p hp).1, hp]
  · intro b hv
    simp [getStaleState, hv]
  · intro p b hp hlook
    refine ⟨?_, ?_, ?_⟩ <;> simp [fulfillCheck, hp, hlook, List.lookup]

/-- C2 (witness): a single call fires one oracle check, and a second call
while it is outstanding returns the same pending promise. -/
theorem getStaleState_check_once_witness :
    (coordExec false [CoordEvent.getVerdict]).oracleCalls ≤ 1
    ∧ getStaleState false (coordExec false [CoordEvent.getVerdict])
        = (coordExec false [CoordEvent.getVerdict], .promiseRef 0) := by
  have h := getStaleState_check_once [CoordEvent.getVerdict]
  exact ⟨h.1, h.2.1 0 rfl⟩

/-- C9: once the single in-flight check's promise has rejected, the
coordinator never recovers: any number of further calls return that same
rejected promise and leave the state (including the single oracle call)
unchanged, and a cache-enabled `run()` whose staleness await rejects with
`e` fails with exactly `e`. -/
theorem getStaleState_rejection_memoized (tr : List CoordEvent) (p : Nat)
    (cfg : LoaderConfig) (env : RunEnv) (e : JsError)
    (h1 : (coordExec false tr).onStartCheckPromise = some p)
    (h2 : (coordExec false tr).settled.lookup p = some .rejected)
    (h3 : cfg.cacheEnabled = true) (h4 : strTruthy cfg.queryName = true)
    (h5 : env.staleResult = .error e) :
    (∀ n, coordExec false (tr ++ List.replicate n CoordEvent.getVerdict)
        = coordExec false tr)
    ∧ getStaleState false (coordExec false tr)
        = (coordExec false tr, .promiseRef p)
    ∧ (coordExec false tr).oracleCalls = 1
    ∧ (run cfg env).result = .error e := by
  obtain ⟨i0, i1, i2⟩ := coordInv_exec tr
  have hstep : getStaleState false (coordExec false tr)
      = (coordExec false tr, .promiseRef p) := by
    simp [getStaleState, (i1 p h1).1, h1]
  refine ⟨?_, hstep, (i1 p h1).2, ?_⟩
  · have hone : coordStep false (coordExec false tr) CoordEvent.getVerdict
        = coordExec false tr := by
      simp only [coordStep, hstep]
    have key : ∀ n, (List.replicate n CoordEvent.getVerdict).foldl
        (coordStep false) (coordExec false tr) = coordExec false tr := by
      intro n
      induction n with
      | zero => rfl
      | succ m ih => rw [List.replicate_succ, List.foldl_cons, hone, ih]
    intro n
    calc coordExec false (tr ++ List.replicate n CoordEvent.getVerdict)
        = (List.replicate n CoordEvent.getVerdict).foldl (coordStep false)
            (coordExec false tr) := by
          simp only [coordExec, List.foldl_append]
      _ = coordExec false tr := key n
  · simp [run, runBody, h3, h4, h5]

/-- C9 (witness): call then rejection; three further calls change
nothing, the next call still returns promise 0, and a run whose
staleness await rejects fails with the same error. -/
theorem getStaleState_rejection_memoized_witness :
    coordExec false ([CoordEvent.getVerdict, CoordEvent.reject]
        ++ List.replicate 3 CoordEvent.getVerdict)
      = coordExec false [CoordEvent.getVerdict, CoordEvent.reject]
    ∧ getStaleState false (coordExec false [CoordEvent.getVerdict, CoordEvent.reject])
      = (coordExec false [CoordEvent.getVerdict, CoordEvent.reject], .promiseRef 0)
    ∧ (run ⟨some "posts", some "Q", none, true, none⟩
          ⟨"queries", .error ⟨"net down"⟩, none, fun _ => none, .ok .null⟩).result
      = .error ⟨"net down"⟩ := by
  have h := getStaleState_rejection_memoized
    [CoordEvent.getVerdict, CoordEvent.reject] 0
    ⟨some "posts", some "Q", none, true, none⟩
    ⟨"queries", .error ⟨"net down"⟩, none, fun _ => none, .ok .null⟩
    ⟨"net down"⟩ rfl rfl rfl rfl rfl
  exact ⟨h.1 3, h.2.1, h.2.2.2⟩
